import Mathlib

/-
Verification of the flecs pipeline scheduler (src/src/modules/pipeline.c)
against its natural-language specification. The C code is shallowly
embedded: machine integers become Nat/Int with explicit wrapping where it
matters, the per-build ecs_map_t becomes a total function from component
ids to write states, and the two query iterations become folds over lists
of system entries presented in the sorted (phase rank, identity) order the
query engine guarantees.
-/

/-- Column source kind (ecs_sig_from_kind_t). The planner distinguishes
only EcsFromSelf and EcsFromEmpty; FromOther stands for every other
source kind, which the planner treats uniformly. -/
inductive FromKind where
  | FromSelf
  | FromEmpty
  | FromOther
  deriving DecidableEq, Repr

/-- Column operator (ecs_sig_oper_kind_t), restricted to the three values
the data model of the spec names; the planner tests only for OperOr and
OperNot, so any further operator behaves like OperAnd. -/
inductive OperKind where
  | OperAnd
  | OperOr
  | OperNot
  deriving DecidableEq, Repr

/-- Column in/out kind (ecs_sig_inout_kind_t). -/
inductive InOutKind where
  | EcsInOut
  | EcsIn
  | EcsOut
  deriving DecidableEq, Repr

/-- ComponentWriteState (pipeline.c lines 69-73). NotWritten is the C
value 0, the default read for an absent map key. -/
inductive ComponentWriteState where
  | NotWritten
  | WriteToMain
  | WriteToStage
  deriving DecidableEq, Repr

open FromKind OperKind InOutKind ComponentWriteState

/-- One signature column (ecs_sig_column_t), with the fields the planner
reads; component is the id stored in column.is.component. -/
structure SigColumn where
  from_kind : FromKind
  oper_kind : OperKind
  inout_kind : InOutKind
  component : Nat
  deriving DecidableEq, Repr

/-- The per-build write state map (an ecs_map_t from component id to
int32). Modelled as a total function; a key never set reads as 0, that is
NotWritten, exactly as get_write_state (lines 76-86) returns 0 for an
absent key. -/
def WriteStateMap : Type := Nat → ComponentWriteState

/-- get_write_state (lines 76-86). -/
def get_write_state (m : WriteStateMap) (component : Nat) : ComponentWriteState :=
  m component

/-- set_write_state (lines 88-95). -/
def set_write_state (m : WriteStateMap) (component : Nat)
    (value : ComponentWriteState) : WriteStateMap :=
  fun c => if c = component then value else m c

/-- reset_write_state (lines 97-102): ecs_map_clear makes every key read
as 0 again. -/
def reset_write_state : WriteStateMap :=
  fun _ => NotWritten

/-- check_column_component (lines 104-138). The C switch falls through
from the EcsInOut and EcsIn cases into the EcsOut case, guarded there by
inout_kind different from EcsIn; the embedding expands the fallthrough per
case. Note the early return true: when an In or InOut column observes
WriteToStage the function returns at once and the map is left untouched.
Returns the needs-merge flag and the updated map. -/
def check_column_component (column : SigColumn) (is_active : Bool)
    (component : Nat) (write_state : WriteStateMap) : Bool × WriteStateMap :=
  let state := get_write_state write_state component
  if column.from_kind = FromSelf ∧ column.oper_kind ≠ OperNot then
    match column.inout_kind with
    | EcsInOut =>
        if state = WriteToStage then (true, write_state)
        else if is_active then
          (false, set_write_state write_state component WriteToMain)
        else (false, write_state)
    | EcsIn =>
        if state = WriteToStage then (true, write_state)
        else (false, write_state)
    | EcsOut =>
        if is_active then
          (false, set_write_state write_state component WriteToMain)
        else (false, write_state)
  else if column.from_kind = FromEmpty ∨ column.oper_kind = OperNot then
    match column.inout_kind with
    | EcsInOut =>
        if is_active then
          (false, set_write_state write_state component WriteToStage)
        else (false, write_state)
    | EcsOut =>
        if is_active then
          (false, set_write_state write_state component WriteToStage)
        else (false, write_state)
    | EcsIn => (false, write_state)
  else (false, write_state)

/-- check_column (lines 140-152): Or columns are skipped, every other
column is checked on its component. -/
def check_column (column : SigColumn) (is_active : Bool)
    (write_state : WriteStateMap) : Bool × WriteStateMap :=
  if column.oper_kind ≠ OperOr then
    check_column_component column is_active column.component write_state
  else (false, write_state)

/-- The ecs_vector_each loop of build_pipeline (lines 193-195 and
207-209): needs_merge is the OR over the columns, and the write state is
threaded through, so a later column observes the writes of earlier columns
of the same system. -/
def check_columns (columns : List SigColumn) (is_active : Bool)
    (write_state : WriteStateMap) : Bool × WriteStateMap :=
  columns.foldl
    (fun acc column =>
      let r := check_column column is_active acc.2
      (acc.1 || r.1, r.2))
    (false, write_state)

/-- One row yielded by the pipeline build query: the system entity id, its
phase rank (the build query is sorted by (phase rank, id)), whether the
EcsSystem record holds a non-null query pointer (sys.query, line 184),
that query signature columns, and the active bit, which in the C code is
the absence of the EcsInactive tag (lines 190-191). -/
structure SystemEntry where
  id : Nat
  phase : Nat
  hasQuery : Bool
  columns : List SigColumn
  active : Bool
  deriving DecidableEq, Repr

/-- The re-evaluation a merging system undergoes after reset_write_state
(build_pipeline lines 202-210): only performed when the system is active,
and then with is_active hard-coded to true; the ecs_assert at line 214
states that the resulting needs_merge is always false. -/
def reeval_needs_merge (sys : SystemEntry) : Bool :=
  if sys.active then (check_columns sys.columns true reset_write_state).1
  else false

/-- The mutable state of the per-system loop of build_pipeline: the write
state map, the ops vector built so far (each ecs_pipeline_op_t is just its
count, line 219 sets it to 0 on creation), and whether op is non-null,
that is whether a current group is open. -/
structure BuildState where
  write_state : WriteStateMap
  ops : List Nat
  hasOp : Bool

/-- Increment the last element of a list; op points at the last inserted
group, and op.count increments in place (line 225). -/
def inc_last : List Nat → List Nat
  | [] => []
  | [n] => [n + 1]
  | n :: m :: rest => n :: inc_last (m :: rest)

/-- The body of the per-system loop of build_pipeline (lines 183-227):
skip systems with a null query; evaluate the columns; on a merge request
clear the write state, close the group, and re-evaluate an active system
from the cleared state (the assert on the re-evaluation is modelled
separately by assert_fires); open a fresh group with count 0 when none is
open; count the system when it is active. -/
def build_step (st : BuildState) (sys : SystemEntry) : BuildState :=
  if sys.hasQuery = false then st
  else
    let checked := check_columns sys.columns sys.active st.write_state
    let merged : WriteStateMap × Bool :=
      if checked.1 then
        (if sys.active then (check_columns sys.columns true reset_write_state).2
         else reset_write_state, false)
      else (checked.2, st.hasOp)
    let ops1 := if merged.2 then st.ops else st.ops ++ [0]
    let ops2 := if sys.active then inc_last ops1 else ops1
    { write_state := merged.1, ops := ops2, hasOp := true }

/-- Condition under which the ecs_assert at line 214 fails while
processing sys from build state st: the system has a query, its first
evaluation requests a merge, and the re-evaluation from the cleared write
state requests one again. -/
def assert_fires (st : BuildState) (sys : SystemEntry) : Bool :=
  sys.hasQuery && (check_columns sys.columns sys.active st.write_state).1 &&
    reeval_needs_merge sys

/-- The initial loop state of build_pipeline: empty map (line 168), null
op (line 169), empty ops vector (line 170). -/
def build_init : BuildState :=
  { write_state := reset_write_state, ops := [], hasOp := false }

/-- The group vector produced by the loop of build_pipeline over the
systems the build query yields, in query order. -/
def build_ops (systems : List SystemEntry) : List Nat :=
  (systems.foldl build_step build_init).ops

/-- The EcsPipelineQuery fields the claims are about: the match count
recorded at the previous build and the stored group vector. match_count
is int32_t and initialized to -1, hence Int. -/
structure PipelineQuery where
  match_count : Int
  ops : List Nat
  deriving DecidableEq, Repr

/-- build_pipeline (lines 154-237). The run query match count after the
forced sort (ecs_query_iter at line 159 sorts and may bump the counter;
line 161 compares and line 233 snapshots the same value) is passed as
query_match_count; the systems the build query yields are passed as a
list. Returns whether the plan changed together with the new
EcsPipelineQuery state. -/
def build_pipeline (query_match_count : Int) (systems : List SystemEntry)
    (pq : PipelineQuery) : Bool × PipelineQuery :=
  if pq.match_count = query_match_count then (false, pq)
  else (true, { match_count := query_match_count, ops := build_ops systems })

/-- ecs_pipeline_update (lines 274-287): the vector count of the ops when
build_pipeline returned true, 0 otherwise. -/
def ecs_pipeline_update (query_match_count : Int) (systems : List SystemEntry)
    (pq : PipelineQuery) : Nat × PipelineQuery :=
  let r := build_pipeline query_match_count systems pq
  (if r.1 then r.2.ops.length else 0, r.2)

/-- compare_entity (lines 48-58). ecs_entity_t is uint64_t and the
function returns int: e1 - e2 wraps modulo 2 ^ 64 and the conversion of
the 64-bit value to the 32-bit int is modelled as twos-complement
truncation, the behavior of every mainstream C implementation. Entity ids
are Nats below 2 ^ 64. -/
def compare_entity (e1 e2 : Nat) : Int :=
  let d : Nat := (e1 + 2 ^ 64 - e2) % 2 ^ 64
  let low : Nat := d % 2 ^ 32
  if low < 2 ^ 31 then (low : Int) else (low : Int) - 2 ^ 32

/-- The strict (phase rank, identity) order in which both pipeline
queries yield systems: primarily by the rank_phase result, secondarily by
the compare_entity identity order. -/
def sys_lt (a b : SystemEntry) : Prop :=
  a.phase < b.phase ∨ (a.phase = b.phase ∧ a.id < b.id)

instance : IsAntisymm SystemEntry sys_lt where
  antisymm a b hab hba := by
    rcases hab with h1 | ⟨h1, h2⟩ <;> rcases hba with h3 | ⟨h3, h4⟩ <;> omega

/-- iter_reset (lines 239-272), flattened over the entity list the run
query yields. Walks the entities, increments ran_since_merge, advances op
when ran_since_merge reaches the count of the current group, and stops at
move_to, returning the position of move_to and the op index after the
advance; returns none where the C code calls ecs_abort (line 269). The C
code reads op.count unchecked; the model reads a default 0 once opIdx
moves past the last group, which only happens after more entities were
visited than the counts add up to. -/
def iter_reset_aux (ops : List Nat) (move_to : Nat) :
    List Nat → Nat → Nat → Nat → Option (Nat × Nat)
  | [], _, _, _ => none
  | e :: rest, pos, opIdx, ran =>
      if ran + 1 = ops.getD opIdx 0 then
        if e = move_to then some (pos, opIdx + 1)
        else iter_reset_aux ops move_to rest (pos + 1) (opIdx + 1) 0
      else
        if e = move_to then some (pos, opIdx)
        else iter_reset_aux ops move_to rest (pos + 1) opIdx (ran + 1)

/-- iter_reset entry point: op starts at the first group and
ran_since_merge at 0 (lines 246-249). -/
def iter_reset (ops : List Nat) (entities : List Nat) (move_to : Nat) :
    Option (Nat × Nat) :=
  iter_reset_aux ops move_to entities 0 0 0

/-- The world fields ecs_frame_end and stop_measure_frame touch. The C
float and double arithmetic is modelled as exact rational arithmetic; a
target_fps of 0 means unset, matching the C truth test. -/
structure FrameWorld where
  measure_frame_time : Bool
  target_fps : Rat
  fps_sleep : Rat
  frame_time_total : Rat
  frame_count_total : Nat
  deriving DecidableEq, Repr

/-- stop_measure_frame (lines 460-482). The measured frame_time comes
from the external time source and is passed in. Returns the updated world
and the seconds slept: the computed sleep when it exceeds 0.01, else no
sleep at all; the carry fps_sleep is set to the computed value in either
case. -/
def stop_measure_frame (w : FrameWorld) (frame_time : Rat)
    (delta_time : Rat) : FrameWorld × Rat :=
  if w.measure_frame_time then
    let w1 := { w with frame_time_total := w.frame_time_total + frame_time }
    if w.target_fps ≠ 0 then
      let sleep := 1 / w.target_fps - delta_time + w1.fps_sleep
      let slept := if sleep > 1 / 100 then sleep else 0
      ({ w1 with fps_sleep := sleep }, slept)
    else (w1, 0)
  else (w, 0)

/-- ecs_frame_end (lines 510-521): increments frame_count_total, then
(the world lock being external) calls stop_measure_frame. -/
def ecs_frame_end (w : FrameWorld) (frame_time delta_time : Rat) :
    FrameWorld × Rat :=
  stop_measure_frame
    { w with frame_count_total := w.frame_count_total + 1 }
    frame_time delta_time

/-- The per-column effect table of section 4.5 of the spec, with the one
amendment the code forces: a FromSelf non-Not In or InOut column that
observes WriteToStage requests a merge and returns at once, leaving the
map untouched, so the WriteToMain row applies to an InOut column only
when the observed state is not WriteToStage. Written from the words of
the spec, to be compared with check_column. -/
def spec_column_effect (column : SigColumn) (is_active : Bool)
    (write_state : WriteStateMap) : Bool × WriteStateMap :=
  if column.oper_kind = OperOr then (false, write_state)
  else if column.from_kind = FromSelf ∧ column.oper_kind ≠ OperNot ∧
      (column.inout_kind = EcsIn ∨ column.inout_kind = EcsInOut) ∧
      get_write_state write_state column.component = WriteToStage then
    (true, write_state)
  else if column.from_kind = FromSelf ∧ column.oper_kind ≠ OperNot ∧
      (column.inout_kind = EcsOut ∨ column.inout_kind = EcsInOut) ∧
      is_active = true then
    (false, set_write_state write_state column.component WriteToMain)
  else if (column.from_kind = FromEmpty ∨ column.oper_kind = OperNot) ∧
      (column.inout_kind = EcsOut ∨ column.inout_kind = EcsInOut) ∧
      is_active = true then
    (false, set_write_state write_state column.component WriteToStage)
  else (false, write_state)

/-- Concrete input for the C1 counterexample: component 0 already written
to stage. -/
def c1_ws : WriteStateMap := set_write_state reset_write_state 0 WriteToStage

/-- Concrete input for the C1 counterexample: an active FromSelf And
InOut column on component 0. -/
def c1_col : SigColumn :=
  { from_kind := FromSelf, oper_kind := OperAnd, inout_kind := EcsInOut,
    component := 0 }

/-- Concrete input for the C2 counterexample: an active system whose
EcsSystem record holds a null query pointer. -/
def c2_sys : SystemEntry :=
  { id := 1, phase := 0, hasQuery := false, columns := [], active := true }

/-- Concrete input for the C4 failing system: an active system that
stage-writes component 0 through a FromEmpty Out column and then reads
component 0 from self. -/
def c4_sys : SystemEntry :=
  { id := 1, phase := 0, hasQuery := true,
    columns :=
      [ { from_kind := FromEmpty, oper_kind := OperAnd, inout_kind := EcsOut,
          component := 0 },
        { from_kind := FromSelf, oper_kind := OperAnd, inout_kind := EcsIn,
          component := 0 } ],
    active := true }

/-- Concrete input for the C6 witness: one active system reading
component 0 from self. -/
def c6_sys : SystemEntry :=
  { id := 1, phase := 0, hasQuery := true,
    columns :=
      [ { from_kind := FromSelf, oper_kind := OperAnd, inout_kind := EcsIn,
          component := 0 } ],
    active := true }

/-- Concrete input for the C9 counterexample: measurement on, target_fps
100, previous sleep carry 1/200. -/
def c9_world : FrameWorld :=
  { measure_frame_time := true, target_fps := 100, fps_sleep := 1 / 200,
    frame_time_total := 0, frame_count_total := 0 }

/-- Concrete input for the C10 witness: an active system with a null
query pointer and a column list that would otherwise force a merge. -/
def c10_sys : SystemEntry :=
  { id := 7, phase := 2, hasQuery := false,
    columns :=
      [ { from_kind := FromSelf, oper_kind := OperAnd, inout_kind := EcsIn,
          component := 3 } ],
    active := true }

/- Helper lemmas about inc_last, used by the C2 development. -/

theorem inc_last_sum : ∀ l : List Nat, l ≠ [] → (inc_last l).sum = l.sum + 1
  | [], h => absurd rfl h
  | [n], _ => by simp [inc_last]
  | a :: b :: l, _ => by
      have ih := inc_last_sum (b :: l) (by simp)
      simp [inc_last, ih]
      omega

theorem inc_last_ne_nil : ∀ l : List Nat, l ≠ [] → inc_last l ≠ []
  | [], h => absurd rfl h
  | [n], _ => by simp [inc_last]
  | _ :: _ :: _, _ => by simp [inc_last]

/-- One step of the build loop adds 1 to the total count exactly when the
system has a query and is active, and keeps the invariant that an open
group means a nonempty ops vector. -/
theorem build_step_sum (st : BuildState) (sys : SystemEntry)
    (h : st.hasOp = true → st.ops ≠ []) :
    (build_step st sys).ops.sum =
      st.ops.sum + (if sys.hasQuery && sys.active then 1 else 0) ∧
    ((build_step st sys).hasOp = true → (build_step st sys).ops ≠ []) := by
  obtain ⟨sid, sph, shq, scols, sact⟩ := sys
  cases shq with
  | false => exact ⟨by simp [build_step], by simpa [build_step] using h⟩
  | true =>
    cases sact with
    | true =>
      cases hc : (check_columns scols true st.write_state).1 with
      | true =>
          constructor
          · simp [build_step, hc, inc_last_sum (st.ops ++ [0]) (by simp)]
          · simp [build_step, hc]
            exact inc_last_ne_nil _ (by simp)
      | false =>
          cases ho : st.hasOp with
          | true =>
              have hne := h ho
              constructor
              · simp [build_step, hc, ho, inc_last_sum st.ops hne]
              · simp [build_step, hc, ho]
                exact inc_last_ne_nil _ hne
          | false =>
              constructor
              · simp [build_step, hc, ho, inc_last_sum (st.ops ++ [0]) (by simp)]
              · simp [build_step, hc, ho]
                exact inc_last_ne_nil _ (by simp)
    | false =>
      cases hc : (check_columns scols false st.write_state).1 with
      | true =>
          constructor
          · simp [build_step, hc]
          · simp [build_step, hc]
      | false =>
          cases ho : st.hasOp with
          | true =>
              constructor
              · simp [build_step, hc, ho]
              · simpa [build_step, hc, ho] using h ho
          | false =>
              constructor
              · simp [build_step, hc, ho]
              · simp [build_step, hc, ho]

/-- The build loop, from any state satisfying the open-group invariant,
adds to the sum of the counts exactly the number of active systems with a
query among the systems processed. -/
theorem build_fold_sum (systems : List SystemEntry) :
    ∀ st : BuildState, (st.hasOp = true → st.ops ≠ []) →
      (systems.foldl build_step st).ops.sum =
        st.ops.sum +
          (systems.filter (fun s => s.hasQuery && s.active)).length := by
  induction systems with
  | nil => intro st _; simp
  | cons sys rest ih =>
      intro st h
      have hstep := build_step_sum st sys h
      simp only [List.foldl_cons, List.filter_cons]
      rw [ih _ hstep.2, hstep.1]
      by_cases hb : (sys.hasQuery && sys.active) = true
      · simp [hb]
        omega
      · simp [hb]

/-- C2 (amended): the sum of count over all execution groups in the
produced plan equals the number of systems that are active and carry a
non-null query handle among those the build query yields; inactive
systems and null-query systems never increment any count. -/
theorem build_ops_sum_active (systems : List SystemEntry) :
    (build_ops systems).sum =
      (systems.filter (fun s => s.hasQuery && s.active)).length := by
  have h := build_fold_sum systems build_init (by simp [build_init])
  simpa [build_ops, build_init] using h

/-- C2 counterexample: a single active system with a null query handle is
visible to the run query (it is active), yet the plan it produces has no
groups at all, so the sum of the counts is 0, not 1. -/
theorem c2_counterexample :
    (build_ops [c2_sys]).sum = 0 ∧
    (([c2_sys].filter (fun s => s.active)).length = 1) := by
  constructor <;> rfl

/-- C4: the internal-inconsistency assertion at pipeline.c line 214 is
reachable. For an active system that stage-writes component 0 through a
FromEmpty Out column and then reads component 0 through a FromSelf In
column, the first evaluation requests a merge, and the re-evaluation from
the cleared write state requests one again, because the evaluation of the
own columns of the system repopulates the map before the read is checked.
So the assertion fires, contradicting the spec sentence that needs_merge
must remain false after re-evaluation. -/
theorem c4_assert_fires : assert_fires build_init c4_sys = true := by decide

/-- C5: when the recorded match count equals the run query match count,
build_pipeline reports no change and returns the EcsPipelineQuery exactly
as it was, groups vector and snapshot included. -/
theorem build_pipeline_skip (query_match_count : Int)
    (systems : List SystemEntry) (pq : PipelineQuery)
    (h : pq.match_count = query_match_count) :
    build_pipeline query_match_count systems pq = (false, pq) := by
  simp [build_pipeline, h]

theorem build_pipeline_skip_witness :
    (PipelineQuery.mk 3 [2]).match_count = 3 ∧
    build_pipeline 3 [] (PipelineQuery.mk 3 [2]) =
      (false, PipelineQuery.mk 3 [2]) :=
  ⟨rfl, build_pipeline_skip 3 [] (PipelineQuery.mk 3 [2]) rfl⟩

/-- C7 (amended): ecs_pipeline_update returns the group count of the plan
only when the call rebuilt it; when the match count is unchanged it
returns 0, regardless of how many groups the current plan holds. -/
theorem ecs_pipeline_update_ret (query_match_count : Int)
    (systems : List SystemEntry) (pq : PipelineQuery) :
    (ecs_pipeline_update query_match_count systems pq).1 =
      (if pq.match_count = query_match_count then 0
       else (build_ops systems).length) := by
  by_cases h : pq.match_count = query_match_count <;>
    simp [ecs_pipeline_update, build_pipeline, h]

/-- C7 counterexample: a pipeline whose current plan has one group, and
whose match count is unchanged: ecs_pipeline_update returns 0, not the
group count 1 of the current plan. -/
theorem c7_counterexample :
    (ecs_pipeline_update 3 [] (PipelineQuery.mk 3 [2])).1 = 0 ∧
    ((ecs_pipeline_update 3 [] (PipelineQuery.mk 3 [2])).2).ops.length = 1 := by
  constructor <;> rfl

/-- C8 (amended): for entity ids below 2 ^ 31 the comparator result has
the sign of the id difference: negative exactly when a < b, zero exactly
when a = b, positive exactly when a > b. -/
theorem compare_entity_sign (a b : Nat) (ha : a < 2 ^ 31) (hb : b < 2 ^ 31) :
    (compare_entity a b < 0 ↔ a < b) ∧
    (compare_entity a b = 0 ↔ a = b) ∧
    (0 < compare_entity a b ↔ b < a) := by
  simp only [compare_entity]
  norm_num
  split_ifs with h1 <;> omega

theorem compare_entity_sign_witness :
    (5 : Nat) < 2 ^ 31 ∧ (7 : Nat) < 2 ^ 31 ∧
    ((compare_entity 5 7 < 0 ↔ (5 : Nat) < 7) ∧
     (compare_entity 5 7 = 0 ↔ (5 : Nat) = 7) ∧
     (0 < compare_entity 5 7 ↔ (7 : Nat) < 5)) :=
  ⟨by norm_num, by norm_num, compare_entity_sign 5 7 (by norm_num) (by norm_num)⟩

/-- C8 counterexample: over the full uint64 id range the sign is wrong:
for a = 2 ^ 32 and b = 0 the difference wraps to 0 after the int
truncation, so the comparator reports equality although a > b. -/
theorem c8_counterexample :
    compare_entity (2 ^ 32) 0 = 0 ∧ (0 : Nat) < 2 ^ 32 := by
  constructor
  · rfl
  · norm_num

/-- C9 (amended): when frame time measurement is on and a target_fps is
set, frame_end computes s = 1/target_fps - delta + carry, sleeps for s
only when s exceeds 0.01 and otherwise does not sleep at all, and stores
s as the new carry even when s is not positive; and every call to
frame_end increments frame_count_total, whatever the world state. -/
theorem ecs_frame_end_spec (w : FrameWorld) (frame_time delta_time : Rat)
    (hm : w.measure_frame_time = true) (hf : w.target_fps ≠ 0) :
    (ecs_frame_end w frame_time delta_time).2 =
      (if 1 / w.target_fps - delta_time + w.fps_sleep > 1 / 100 then
        1 / w.target_fps - delta_time + w.fps_sleep else 0) ∧
    (ecs_frame_end w frame_time delta_time).1.fps_sleep =
      1 / w.target_fps - delta_time + w.fps_sleep ∧
    (ecs_frame_end w frame_time delta_time).1.frame_count_total =
      w.frame_count_total + 1 ∧
    (∀ w2 : FrameWorld,
      (ecs_frame_end w2 frame_time delta_time).1.frame_count_total =
        w2.frame_count_total + 1) := by
  refine ⟨?_, ?_, ?_, ?_⟩
  · simp [ecs_frame_end, stop_measure_frame, hm, hf]
  · simp [ecs_frame_end, stop_measure_frame, hm, hf]
  · simp [ecs_frame_end, stop_measure_frame, hm, hf]
  · intro w2
    by_cases h2m : w2.measure_frame_time = true
    · by_cases h2f : w2.target_fps = 0 <;>
        simp [ecs_frame_end, stop_measure_frame, h2m, h2f]
    · simp [ecs_frame_end, stop_measure_frame, h2m]

theorem ecs_frame_end_spec_witness :
    (FrameWorld.mk true 60 0 0 0).measure_frame_time = true ∧
    (FrameWorld.mk true 60 0 0 0).target_fps ≠ 0 ∧
    ((ecs_frame_end (FrameWorld.mk true 60 0 0 0) 0 0).2 =
      (if 1 / (FrameWorld.mk true 60 0 0 0).target_fps - 0 +
          (FrameWorld.mk true 60 0 0 0).fps_sleep > 1 / 100 then
        1 / (FrameWorld.mk true 60 0 0 0).target_fps - 0 +
          (FrameWorld.mk true 60 0 0 0).fps_sleep else 0) ∧
     (ecs_frame_end (FrameWorld.mk true 60 0 0 0) 0 0).1.fps_sleep =
      1 / (FrameWorld.mk true 60 0 0 0).target_fps - 0 +
        (FrameWorld.mk true 60 0 0 0).fps_sleep ∧
     (ecs_frame_end (FrameWorld.mk true 60 0 0 0) 0 0).1.frame_count_total =
      (FrameWorld.mk true 60 0 0 0).frame_count_total + 1 ∧
     (∀ w2 : FrameWorld,
       (ecs_frame_end w2 0 0).1.frame_count_total =
         w2.frame_count_total + 1)) :=
  ⟨rfl, by norm_num,
    ecs_frame_end_spec (FrameWorld.mk true 60 0 0 0) 0 0 rfl (by norm_num)⟩

/-- C9 counterexample: with measurement on, target_fps 100, delta 1/100
and carry 1/200, the claimed sleep max(0, 1/100 - 1/100 + 1/200) = 1/200
is positive, yet frame_end sleeps 0 seconds, because the computed sleep
does not exceed the 0.01 threshold the code actually uses. -/
theorem c9_counterexample :
    (ecs_frame_end c9_world 0 (1 / 100)).2 = 0 ∧
    max 0 (1 / (100 : Rat) - 1 / 100 + 1 / 200) = 1 / 200 ∧
    (1 / 200 : Rat) ≠ 0 := by
  refine ⟨?_, by norm_num, by norm_num⟩
  norm_num [ecs_frame_end, stop_measure_frame, c9_world]

/-- C10: a system whose descriptor holds a null query handle is skipped
entirely by the plan builder: processing it leaves the build state
untouched, whatever that state is, and removing it from any position of
the build query changes nothing about the produced plan. -/
theorem build_null_query_skipped (sys : SystemEntry)
    (h : sys.hasQuery = false) :
    (∀ st : BuildState, build_step st sys = st) ∧
    (∀ pre post : List SystemEntry,
      build_ops (pre ++ sys :: post) = build_ops (pre ++ post)) := by
  have hstep : ∀ st : BuildState, build_step st sys = st := by
    intro st; simp [build_step, h]
  refine ⟨hstep, ?_⟩
  intro pre post
  simp [build_ops, List.foldl_append, hstep]

theorem build_null_query_skipped_witness :
    c10_sys.hasQuery = false ∧
    ((∀ st : BuildState, build_step st c10_sys = st) ∧
     (∀ pre post : List SystemEntry,
       build_ops (pre ++ c10_sys :: post) = build_ops (pre ++ post))) :=
  ⟨rfl, build_null_query_skipped c10_sys rfl⟩

/-- C1 (amended): for every column the plan builder evaluates, the effect
of check_column is exactly the per-column table of the spec with one
amendment: a FromSelf non-Not In or InOut column that observes
WriteToStage requests a merge and leaves the write state untouched (the C
function returns early), so the set-to-WriteToMain row applies to an
InOut column only when the observed state is not WriteToStage; every
combination outside the table changes no write state and requests no
merge. -/
theorem check_column_matches_spec_table (column : SigColumn)
    (is_active : Bool) (write_state : WriteStateMap) :
    check_column column is_active write_state =
      spec_column_effect column is_active write_state := by
  obtain ⟨fk, ok, io, comp⟩ := column
  cases hst : write_state comp <;> cases fk <;> cases ok <;> cases io <;>
    cases is_active <;>
    simp [check_column, check_column_component, spec_column_effect,
      get_write_state, hst]

/-- C1 counterexample: an active FromSelf And InOut column on a component
whose observed state is WriteToStage requests the merge but does not set
the state to WriteToMain as the claim demands: the state stays
WriteToStage. -/
theorem c1_counterexample :
    (check_column c1_col true c1_ws).1 = true ∧
    get_write_state (check_column c1_col true c1_ws).2 0 = WriteToStage ∧
    WriteToStage ≠ WriteToMain := by
  refine ⟨rfl, rfl, by decide⟩

/-- C6: the plan is a pure function of the system set ordered by (phase
rank, identity): two builds over any two presentations of the same system
set, each sorted by the strict (phase rank, id) order, started from any
two prior pipeline states and any two match counts that trigger a
rebuild, produce identical group vectors. -/
theorem build_pipeline_deterministic
    (l1 l2 : List SystemEntry) (pq1 pq2 : PipelineQuery)
    (qmc1 qmc2 : Int)
    (hperm : l1.Perm l2)
    (hs1 : l1.Sorted sys_lt) (hs2 : l2.Sorted sys_lt)
    (h1 : pq1.match_count ≠ qmc1) (h2 : pq2.match_count ≠ qmc2) :
    (build_pipeline qmc1 l1 pq1).2.ops = (build_pipeline qmc2 l2 pq2).2.ops := by
  have heq : l1 = l2 := List.eq_of_perm_of_sorted hperm hs1 hs2
  subst heq
  simp [build_pipeline, h1, h2]

theorem build_pipeline_deterministic_witness :
    [c6_sys].Perm [c6_sys] ∧ [c6_sys].Sorted sys_lt ∧
    ((PipelineQuery.mk (-1) []).match_count ≠ 0) ∧
    (build_pipeline 0 [c6_sys] (PipelineQuery.mk (-1) [])).2.ops =
      (build_pipeline 0 [c6_sys] (PipelineQuery.mk (-1) [])).2.ops :=
  ⟨List.Perm.refl _, List.sorted_singleton _, by norm_num,
    build_pipeline_deterministic [c6_sys] [c6_sys]
      (PipelineQuery.mk (-1) []) (PipelineQuery.mk (-1) []) 0 0
      (List.Perm.refl _) (List.sorted_singleton _) (List.sorted_singleton _)
      (by norm_num) (by norm_num)⟩

/-- iter_reset walks past any prefix that does not hold move_to and stops
at the first occurrence of move_to, returning its position (and some op
index). -/
theorem iter_reset_aux_found (ops : List Nat) (move_to : Nat)
    (before : List Nat) :
    ∀ (after : List Nat) (pos opIdx ran : Nat), move_to ∉ before →
      ∃ o, iter_reset_aux ops move_to (before ++ move_to :: after)
        pos opIdx ran = some (pos + before.length, o) := by
  induction before with
  | nil =>
      intro after pos opIdx ran _
      rw [List.nil_append]
      by_cases h : ran + 1 = ops.getD opIdx 0
      · refine ⟨opIdx + 1, ?_⟩
        simp only [iter_reset_aux]
        rw [if_pos h]
        simp
      · refine ⟨opIdx, ?_⟩
        simp only [iter_reset_aux]
        rw [if_neg h]
        simp
  | cons b rest ih =>
      intro after pos opIdx ran hmem
      have hb : ¬(b = move_to) := by
        intro hbe; exact hmem (by simp [hbe])
      have hrest : move_to ∉ rest := fun hm => hmem (by simp [hm])
      by_cases h : ran + 1 = ops.getD opIdx 0
      · obtain ⟨o, ho⟩ := ih after (pos + 1) (opIdx + 1) 0 hrest
        refine ⟨o, ?_⟩
        have harith : pos + (b :: rest).length = pos + 1 + rest.length := by
          simp; omega
        rw [harith, List.cons_append]
        simp only [iter_reset_aux, h, if_true, hb, if_false, ite_true,
          ite_false, if_neg, if_pos]
        exact ho
      · obtain ⟨o, ho⟩ := ih after (pos + 1) opIdx (ran + 1) hrest
        refine ⟨o, ?_⟩
        have harith : pos + (b :: rest).length = pos + 1 + rest.length := by
          simp; omega
        rw [harith, List.cons_append]
        simp only [iter_reset_aux, h, if_false, hb, ite_false, if_neg]
        exact ho

/-- iter_reset reaches the ecs_abort of line 269 when move_to is nowhere
in the fresh iterator. -/
theorem iter_reset_aux_none (ops : List Nat) (move_to : Nat)
    (entities : List Nat) :
    ∀ (pos opIdx ran : Nat), move_to ∉ entities →
      iter_reset_aux ops move_to entities pos opIdx ran = none := by
  induction entities with
  | nil => intro pos opIdx ran _; rfl
  | cons e rest ih =>
      intro pos opIdx ran hmem
      have he : ¬(e = move_to) := by
        intro hee; exact hmem (by simp [hee])
      have hrest : move_to ∉ rest := fun hm => hmem (by simp [hm])
      by_cases h : ran + 1 = ops.getD opIdx 0 <;>
        simp [iter_reset_aux, h, he, ih _ _ _ hrest]

/-- C3 (amended): after a merge barrier reports a changed match set, the
recovery walks a fresh run-query iterator, mirroring the group advances,
up to the first occurrence of the entity e just executed, and resumes
with the next system after it. With both the stale and the fresh iterator
sorted by the strict (phase rank, id) order (written here over entity
keys), and the systems executed so far being the prefix of the stale
order through e, the frame then executes no system twice, and skips no
system that is matched both before and after the merge; a system newly
matched at a position before the resume point, however, is not executed
this frame, so the unconditional no-skip reading of the claim fails (see
the counterexample). If e is not in the fresh iterator, iter_reset runs
off the list and aborts. -/
theorem iter_reset_recovery
    (ops : List Nat) (e : Nat)
    (obefore oafter nbefore nafter : List Nat)
    (hOld : (obefore ++ e :: oafter).Sorted (· < ·))
    (hNew : (nbefore ++ e :: nafter).Sorted (· < ·)) :
    (∃ o, iter_reset ops (nbefore ++ e :: nafter) e =
      some (nbefore.length, o)) ∧
    (nbefore ++ e :: nafter).drop (nbefore.length + 1) = nafter ∧
    ((obefore ++ [e]) ++ nafter).Nodup ∧
    (∀ x, x ∈ nbefore ++ e :: nafter → x ∈ obefore ++ e :: oafter →
      x ∈ (obefore ++ [e]) ++ nafter) ∧
    (∀ entities : List Nat, e ∉ entities →
      iter_reset ops entities e = none) := by
  have hOldP : (obefore ++ e :: oafter).Pairwise (· < ·) := hOld
  have hNewP : (nbefore ++ e :: nafter).Pairwise (· < ·) := hNew
  obtain ⟨hpw_ob, hpw_eoa, hcross_o⟩ := List.pairwise_append.1 hOldP
  obtain ⟨hpw_nb, hpw_ena, hcross_n⟩ := List.pairwise_append.1 hNewP
  have hobe : ∀ x ∈ obefore, x < e := fun x hx =>
    hcross_o x hx e (List.mem_cons_self e oafter)
  have hnbe : ∀ x ∈ nbefore, x < e := fun x hx =>
    hcross_n x hx e (List.mem_cons_self e nafter)
  have hoaf : ∀ y ∈ oafter, e < y := fun y hy =>
    List.rel_of_pairwise_cons hpw_eoa hy
  have hnaf : ∀ y ∈ nafter, e < y := fun y hy =>
    List.rel_of_pairwise_cons hpw_ena hy
  have henb : e ∉ nbefore := fun hx => absurd (hnbe e hx) (lt_irrefl e)
  refine ⟨?_, ?_, ?_, ?_, ?_⟩
  · obtain ⟨o, ho⟩ := iter_reset_aux_found ops e nbefore nafter 0 0 0 henb
    exact ⟨o, by simpa [iter_reset] using ho⟩
  · have hsplit : nbefore ++ e :: nafter = (nbefore ++ [e]) ++ nafter := by
      simp
    rw [hsplit, show nbefore.length + 1 = (nbefore ++ [e]).length by simp]
    exact List.drop_left _ _
  · have hpw : ((obefore ++ [e]) ++ nafter).Pairwise (· < ·) := by
      rw [show (obefore ++ [e]) ++ nafter = obefore ++ e :: nafter by simp]
      refine List.pairwise_append.2 ⟨hpw_ob, ?_, ?_⟩
      · exact List.pairwise_cons.2 ⟨hnaf, (List.pairwise_cons.1 hpw_ena).2⟩
      · intro x hx y hy
        rcases List.mem_cons.1 hy with rfl | hy2
        · exact hobe x hx
        · exact lt_trans (hobe x hx) (hnaf y hy2)
    exact hpw.nodup
  · intro x hxn hxo
    rcases List.mem_append.1 hxn with hx1 | hx2
    · have hxe : x < e := hnbe x hx1
      rcases List.mem_append.1 hxo with ho1 | ho2
      · exact List.mem_append.2 (Or.inl (List.mem_append.2 (Or.inl ho1)))
      · rcases List.mem_cons.1 ho2 with rfl | ho3
        · exact absurd hxe (lt_irrefl x)
        · exact absurd (lt_trans hxe (hoaf x ho3)) (lt_irrefl x)
    · rcases List.mem_cons.1 hx2 with rfl | hx3
      · exact List.mem_append.2 (Or.inl (List.mem_append.2 (Or.inr (List.mem_singleton.2 rfl))))
      · exact List.mem_append.2 (Or.inr hx3)
  · intro entities hne
    exact iter_reset_aux_none ops e entities 0 0 0 hne

theorem iter_reset_recovery_witness :
    (([10] ++ 20 :: ([] : List Nat)).Sorted (· < ·)) ∧
    (([5, 10] ++ 20 :: [30]).Sorted (· < ·)) ∧
    ((∃ o, iter_reset [1, 2] ([5, 10] ++ 20 :: [30]) 20 =
        some (([5, 10] : List Nat).length, o)) ∧
     ([5, 10] ++ 20 :: [30]).drop (([5, 10] : List Nat).length + 1) = [30] ∧
     (([10] ++ [20]) ++ [30]).Nodup ∧
     (∀ x, x ∈ [5, 10] ++ 20 :: [30] → x ∈ [10] ++ 20 :: ([] : List Nat) →
        x ∈ ([10] ++ [20]) ++ [30]) ∧
     (∀ entities : List Nat, 20 ∉ entities →
        iter_reset [1, 2] entities 20 = none)) :=
  ⟨by decide, by decide,
    iter_reset_recovery [1, 2] 20 [10] [] [5, 10] [30] (by decide) (by decide)⟩

/-- C3 counterexample: the stale run order was [10, 20] and the frame had
executed both when the merge changed the match set to [5, 10, 20, 30]
(with group counts [4]): the fresh system 5 sorts before the resume
point, recovery resumes after entity 20 at position 2, and the frame
executes [10, 20] ++ [30]; the active system 5 is skipped, against the
none-is-skipped reading of the claim. -/
theorem c3_counterexample :
    iter_reset [4] [5, 10, 20, 30] 20 = some (2, 0) ∧
    5 ∈ [5, 10, 20, 30] ∧
    5 ∉ [10, 20] ++ ([5, 10, 20, 30].drop (2 + 1)) := by
  refine ⟨rfl, by decide, by decide⟩
